import Mathlib

/-!
Shallow embedding of `src/pyuppaal/iTools/ufactory.py` (class `UFactory`),
the UPPAAL xml-fragment factory of PyUPPAAL, together with proofs about the
node builders (`location`, `transition`, `template`) and the
monitor-synthesis entry points (`monitor`, `strict_monitor`,
`monitor_allpatterns`).

Python strings are Lean `String`s, `None`-able strings are `Option String`,
`xml.etree` elements are the inductive `Element`, Python ints are `Int`,
and code that can raise is embedded in `Except PyError`.

A central fact of this module is that it binds the class under the name
`UFactory` (line 5) while every synthesis method's body calls its helpers
through the global name `UppaalFactory` (a stale name left over from the
docstring's `usage: UppaalFactory.function(xxx)`).  No binding named
`UppaalFactory` exists anywhere in the module, so Python's global lookup
raises `NameError` at the first such reference an execution reaches —
which every path of `monitor`, `strict_monitor` and `monitor_allpatterns`
reaches before producing anything.  The embedding models that lookup
explicitly (`resolveGlobal`, `moduleBindings`), and the fragments the loop
bodies would build behind a successful lookup are kept as separate
definitions, used only in the (here unreachable) success branch.
-/

/-- Little-endian list of decimal digit characters of `n`; `fuel` bounds the
recursion and is always instantiated with a sufficient value. -/
def natDigitsRev (fuel n : Nat) : List Char :=
  match fuel, n with
  | 0, _ => []
  | fuel + 1, n => if n = 0 then [] else Nat.digitChar (n % 10) :: natDigitsRev fuel (n / 10)

/-- Decimal rendering of a natural number, as Python `str` renders it. -/
def natRepr (n : Nat) : String :=
  if n = 0 then "0" else ⟨(natDigitsRev n n).reverse⟩

/-- Decimal rendering of an integer, as Python string interpolation
(`f'id{location_id}'`, `str(pos_x)`) renders it. -/
def intRepr (m : Int) : String :=
  if m < 0 then "-" ++ natRepr m.natAbs else natRepr m.natAbs

/-- The `id<N>` attribute convention of the factory. -/
def idStr (m : Int) : String := "id" ++ intRepr m

/-- One pass of CPython `str.replace` over a character list: replace each
non-overlapping occurrence of `pat`, left to right.  `fuel` bounds the
recursion and is always instantiated with the length of the subject. -/
def replaceFuel (pat rep : List Char) : Nat → List Char → List Char
  | 0, s => s
  | _ + 1, [] => []
  | fuel + 1, c :: cs =>
    if !pat.isEmpty && pat.isPrefixOf (c :: cs) then
      rep ++ replaceFuel pat rep fuel (List.drop pat.length (c :: cs))
    else
      c :: replaceFuel pat rep fuel cs

/-- Model of CPython `str.replace(pat, rep)` for non-empty `pat` (the source
only ever replaces the non-empty patterns `"<="`, `">="` and `"!"`). -/
def pyReplace (s pat rep : String) : String :=
  ⟨replaceFuel pat.data rep.data s.data.length s.data⟩

/-- An `xml.etree.cElementTree` element: a tag, an attribute list (in
insertion order), optional text, and a child list (in append order). -/
inductive Element where
  | mk (tag : String) (attrib : List (String × String)) (text : Option String)
      (children : List Element)

def Element.tag : Element → String
  | .mk t _ _ _ => t

def Element.attrib : Element → List (String × String)
  | .mk _ a _ _ => a

def Element.text : Element → Option String
  | .mk _ _ tx _ => tx

def Element.children : Element → List Element
  | .mk _ _ _ c => c

/-- Attribute lookup (first binding of the key wins, as in a Python dict). -/
def Element.attrVal (e : Element) (key : String) : Option String :=
  (e.attrib.find? (fun p => p.1 == key)).map Prod.snd

/-- The runtime errors the embedded code can raise. -/
inductive PyError where
  | nameError (missing : String)
  | attributeError (msg : String)
deriving DecidableEq

/-- `for i in range(..)`-style loop producing a list, the counter starting
at `k`. -/
def mapIdxFrom (f : Nat → α → β) : Nat → List α → List β
  | _, [] => []
  | k, x :: xs => f k x :: mapIdxFrom f (k + 1) xs

/-- Effectful map: run `f` on each element left to right, stopping at the
first raised error (the embedding of a Python `for` loop whose body can
raise). -/
def exMapM (f : α → Except ε β) : List α → Except ε (List β)
  | [] => .ok []
  | x :: xs =>
    match f x with
    | .error e => .error e
    | .ok y =>
      match exMapM f xs with
      | .error e => .error e
      | .ok ys => .ok (y :: ys)

namespace UFactory

/-- An observation tuple `(signal, guard, inv)`; each component may be
`None`. -/
abbrev Signal := Option String × Option String × Option String

/-- The names bound at module level in ufactory.py: the three `typing`
imports, the alias `ET`, and the class `UFactory` itself (line 5).  No
binding named `UppaalFactory` exists. -/
def moduleBindings : List String := ["List", "Tuple", "Dict", "ET", "UFactory"]

/-- For each public synthesis operation, the module-level (non-builtin)
names its effective body refers to, read off the source: `queries`
(line 69), `monitor` (252, 255, 262, 303), `strict_monitor` (321),
`monitor_allpatterns` (349, 352, 361, 369, 379, 384), `input` — the
effective definition at line 388 — (413, 416, 423, 450, 456, 459, 464). -/
def opGlobalRefs : List (String × List String) :=
  [("queries", ["UppaalFactory"]),
   ("monitor", ["UppaalFactory"]),
   ("strict_monitor", ["UppaalFactory"]),
   ("monitor_allpatterns", ["UppaalFactory"]),
   ("input", ["UppaalFactory"])]

/-- Python global-name resolution: a lookup miss raises `NameError`. -/
def resolveGlobal (env : List String) (nm : String) : Except PyError String :=
  if env.contains nm then .ok nm else .error (.nameError nm)

/-- `UFactory.location` (ufactory.py:72-109): a `location` element with the
`id`/`x`/`y` attributes and optional `name`, invariant `label` and
`committed` children, in that order. -/
def location (location_id : Int) (pos_x : Int) (pos_y : Int)
    (inv : Option String) (nm : Option String) (is_committed : Bool) : Element :=
  let nameChildren : List Element :=
    match nm with
    | some s => [Element.mk "name" [("x", intRepr pos_x), ("y", intRepr (pos_y - 20))] (some s) []]
    | none => []
  let invChildren : List Element :=
    match inv with
    | some s =>
      [Element.mk "label" [("kind", "invariant"), ("x", intRepr pos_x), ("y", intRepr (pos_y - 40))]
        (some s) []]
    | none => []
  let committedChildren : List Element :=
    if is_committed then [Element.mk "committed" [] none []] else []
  Element.mk "location"
    [("id", idStr location_id), ("x", intRepr pos_x), ("y", intRepr pos_y)]
    none (nameChildren ++ invChildren ++ committedChildren)

/-- `UFactory.transition` (ufactory.py:111-158): a `transition` element with
`source` and `target` children followed by the optional `guard`,
`synchronisation` and `assignment` labels. -/
def transition (sourceID targetID : Int) (pos_x pos_y : Int)
    (guard sync clock_reset : Option String) : Element :=
  let guardChildren : List Element :=
    match guard with
    | some g => [Element.mk "label" [("kind", "guard"), ("x", intRepr pos_x), ("y", intRepr pos_y)] (some g) []]
    | none => []
  let syncChildren : List Element :=
    match sync with
    | some s =>
      [Element.mk "label" [("kind", "synchronisation"), ("x", intRepr pos_x), ("y", intRepr (pos_y - 30))]
        (some s) []]
    | none => []
  let resetChildren : List Element :=
    match clock_reset with
    | some r =>
      [Element.mk "label" [("kind", "assignment"), ("x", intRepr pos_x), ("y", intRepr (pos_y - 60))]
        (some r) []]
    | none => []
  Element.mk "transition" [] none
    ([Element.mk "source" [("ref", idStr sourceID)] none [],
      Element.mk "target" [("ref", idStr targetID)] none []]
      ++ guardChildren ++ syncChildren ++ resetChildren)

/-- `UFactory.template` (ufactory.py:160-217).  Note the faithful slip of
line 203: the `declaration` child's text is assigned from the `parameter`
argument, not from `declaration`.  (This method references no stale global
name and is directly callable.) -/
def template (nm : String) (locations : List Element) (init_id : Int)
    (transitions : List Element) (parameter declaration : Option String) : Element :=
  let nameChildren : List Element := [Element.mk "name" [] (some nm) []]
  let parameterChildren : List Element :=
    match parameter with
    | some p => [Element.mk "parameter" [] (some p) []]
    | none => []
  let declarationChildren : List Element :=
    match declaration with
    | some _ => [Element.mk "declaration" [] parameter []]
    | none => []
  Element.mk "template" [] none
    (nameChildren ++ parameterChildren ++ declarationChildren ++ locations
      ++ [Element.mk "init" [("ref", idStr init_id)] none []] ++ transitions)

/-- The location list the loop at ufactory.py:248-256 sets out to build
(one location per signal carrying its invariant, plus the tail named
`pass`).  Used only in the branch of `monitor` behind a successful lookup
of the class name, which in this module never succeeds. -/
def monitorLocations (signals : List Signal) (init_id : Int) : List Element :=
  mapIdxFrom (fun i s => location (init_id + i) (300 * (i : Int)) 200 s.2.2 none false) 0 signals
    ++ [location (init_id + signals.length) (300 * (signals.length : Int)) 200 none (some "pass") false]

/-- The transition list the loop at ufactory.py:258-264 sets out to build:
transition `i` connects `init_id+i → init_id+i+1` carrying guard and
synchronisation from `signals[i]`.  Used only in the unreachable success
branch of `monitor`. -/
def monitorTransitions (signals : List Signal) (init_id : Int) : List Element :=
  mapIdxFrom
    (fun i s => transition (init_id + i) (init_id + i + 1) ((i : Int) * 300 + 100) 200 s.2.1 s.1 none)
    0 signals

/-- `s.replace(pat, rep)` on a `None`-able string: raises `AttributeError`
when the receiver is `None`. -/
def pyReplaceOpt (s : Option String) (pat rep : String) : Except PyError String :=
  match s with
  | none => .error (.attributeError "NoneType object has no attribute replace")
  | some s => .ok (pyReplace s pat rep)

/-- One iteration of the `strict` loop of ufactory.py:282-301 — the fail
location for index `i` together with the trap transition into it —
as it would run behind a resolved class name (unreachable here). -/
def strictFailPair (signals : List Signal) (init_id : Int) (i : Nat) :
    Except PyError (Element × Element) :=
  match pyReplaceOpt (signals.getD i (none, none, none)).2.2 "<=" "<" with
  | .error e => .error e
  | .ok invStrict =>
    if i = 0 then
      .ok (location (init_id + signals.length + i + 1) (300 * (i : Int)) (-200) (some invStrict)
          (some ("fail" ++ intRepr i)) false,
        transition (init_id + i) (init_id + signals.length + i + 1) ((i : Int) * 300 + 100)
          (-100) none (signals.getD i (none, none, none)).1 none)
    else
      match pyReplaceOpt (signals.getD (i - 1) (none, none, none)).2.1 ">=" ">" with
      | .error e => .error e
      | .ok guardStrict =>
        .ok (location (init_id + signals.length + i + 1) (300 * (i : Int)) (-200) (some invStrict)
            (some ("fail" ++ intRepr i)) false,
          transition (init_id + i) (init_id + signals.length + i + 1) ((i : Int) * 300 + 100)
            (-100) (some guardStrict) (signals.getD i (none, none, none)).1 none)

/-- The full `strict` loop of ufactory.py:282-301: fail locations and trap
transitions for `i = 0, ..., len(signals)-1`, first raise wins
(unreachable here, see `strictFailPair`). -/
def strictParts (signals : List Signal) (init_id : Int) :
    Except PyError (List (Element × Element)) :=
  exMapM (strictFailPair signals init_id) (List.range signals.length)

/-- `UFactory.monitor` (ufactory.py:226-304).  Every execution path
dereferences the module-global name `UppaalFactory` before any part of the
result is observable (line 252 for `n ≥ 1`, line 255 for `n = 0`, then
262 and 303), and the module binds no such name (see `moduleBindings`), so
every call raises `NameError`.  The lookup is unconditional and
effect-free, so it is modelled once, up front.  The branch behind a
successful lookup transcribes the body with `UppaalFactory.*` denoting the
class's own static methods — what the docstring's
`usage: UppaalFactory.function(xxx)` intends the name to denote — and is
unreachable in this module. -/
def monitor (monitor_name : String) (signals : List Signal) (init_id : Int)
    (strict : Bool) : Except PyError Element :=
  match resolveGlobal moduleBindings "UppaalFactory" with
  | .error e => .error e
  | .ok _ =>
    if strict then
      match strictParts signals init_id with
      | .error e => .error e
      | .ok pairs =>
        .ok (template monitor_name (monitorLocations signals init_id ++ pairs.map Prod.fst) init_id
          (monitorTransitions signals init_id ++ pairs.map Prod.snd) none none)
    else
      .ok (template monitor_name (monitorLocations signals init_id) init_id
        (monitorTransitions signals init_id) none none)

/-- `UFactory.strict_monitor` (ufactory.py:306-321): line 321 dereferences
`UppaalFactory` itself, so the call raises `NameError` before `monitor`
is ever entered. -/
def strict_monitor (monitor_name : String) (signals : List Signal) (init_id : Int) :
    Except PyError Element :=
  match resolveGlobal moduleBindings "UppaalFactory" with
  | .error e => .error e
  | .ok _ => monitor monitor_name signals init_id true

/-- Main-chain locations the loop at ufactory.py:345-353 sets out to build:
invariants are NOT propagated (the call passes the literal `None`), tail
named `pass`.  Used only in the unreachable success branch of
`monitor_allpatterns`. -/
def apMainLocations (signals : List Signal) (init_id : Int) : List Element :=
  mapIdxFrom (fun i _ => location (init_id + i) (300 * (i : Int)) 200 none none false) 0 signals
    ++ [location (init_id + signals.length) (300 * (signals.length : Int)) 200 none (some "pass") false]

/-- The alphabet values that do not match the expected signal after
normalising the send marker `!` to the receive marker `?`
(ufactory.py:358-359, 376-377), in iteration order. -/
def nonMatching (values : List String) (sig : Option String) : List String :=
  values.filter (fun v => sig != some (pyReplace v "!" "?"))

/-- Trap id arithmetic of `monitor_allpatterns` (ufactory.py:361, 379):
`init_id + n + 1 + i*(k-1) + j` with `n` the chain length and `k` the
alphabet size. -/
def apTrapId (init_id : Int) (n k : Nat) (i j : Nat) : Int :=
  init_id + n + 1 + (i : Int) * ((k : Int) - 1) + (j : Int)

/-- Trap locations the loop at ufactory.py:355-363 sets out to build: one
per (chain index `i`, non-matching alphabet value `j`), `j` restarting at
0 for each `i`.  Unreachable success-branch material. -/
def apTrapLocations (signals : List Signal) (init_id : Int) (values : List String) : List Element :=
  (mapIdxFrom
      (fun i s =>
        mapIdxFrom
          (fun j _ =>
            location (apTrapId init_id signals.length values.length i j) (300 * (i : Int))
              (500 + 100 * (j : Int)) none none false)
          0 (nonMatching values s.1))
      0 signals).flatten

/-- Main-chain transitions the loop at ufactory.py:365-371 sets out to
build: guards are NOT propagated (the call passes the literal `None`).
Unreachable success-branch material. -/
def apMainTransitions (signals : List Signal) (init_id : Int) : List Element :=
  mapIdxFrom
    (fun i s => transition (init_id + i) (init_id + i + 1) ((i : Int) * 300 + 100) 200 none s.1 none)
    0 signals

/-- Trap transitions the loop at ufactory.py:373-382 sets out to build.
Unreachable success-branch material. -/
def apTrapTransitions (signals : List Signal) (init_id : Int) (values : List String) : List Element :=
  (mapIdxFrom
      (fun i s =>
        mapIdxFrom
          (fun j v =>
            transition (init_id + i) (apTrapId init_id signals.length values.length i j)
              ((i : Int) * 300 + 100) 200 none (some (pyReplace v "!" "?")) none)
          0 (nonMatching values s.1))
      0 signals).flatten

/-- `UFactory.monitor_allpatterns` (ufactory.py:323-385).  The
`edge_signal_dict` argument is modelled as its entry list in insertion
order (the body only uses `len(...)` and `.values()`).  Every path
dereferences `UppaalFactory` first (line 349 for `n ≥ 1`, line 352 for
`n = 0`, then 361/369/379/384), so — as for `monitor` — every call raises
`NameError`; the success branch is unreachable in this module. -/
def monitor_allpatterns (monitor_name : String) (signals : List Signal) (init_id : Int)
    (edge_signal_dict : List (String × String)) : Except PyError Element :=
  match resolveGlobal moduleBindings "UppaalFactory" with
  | .error e => .error e
  | .ok _ =>
    .ok (template monitor_name
      (apMainLocations signals init_id
        ++ apTrapLocations signals init_id (edge_signal_dict.map Prod.snd)) init_id
      (apMainTransitions signals init_id
        ++ apTrapTransitions signals init_id (edge_signal_dict.map Prod.snd)) none none)

end UFactory

/-! ### Accessors used to state properties of the produced fragments -/

def templateLocations (t : Element) : List Element :=
  t.children.filter (fun c => c.tag == "location")

def templateTransitions (t : Element) : List Element :=
  t.children.filter (fun c => c.tag == "transition")

def templateInit (t : Element) : Option String :=
  ((t.children.filter (fun c => c.tag == "init")).head?).bind (fun e => e.attrVal "ref")

def templateDeclTexts (t : Element) : List (Option String) :=
  (t.children.filter (fun c => c.tag == "declaration")).map Element.text

def firstChildWithTag (e : Element) (tg : String) : Option Element :=
  (e.children.filter (fun c => c.tag == tg)).head?

def labelOfKind (e : Element) (kind : String) : Option Element :=
  (e.children.filter (fun c => c.tag == "label" && c.attrVal "kind" == some kind)).head?

def locId (l : Element) : Option String := l.attrVal "id"

def locName (l : Element) : Option String := (firstChildWithTag l "name").bind Element.text

def locInv (l : Element) : Option String := (labelOfKind l "invariant").bind Element.text

def trSource (tr : Element) : Option String :=
  (firstChildWithTag tr "source").bind (fun e => e.attrVal "ref")

def trTarget (tr : Element) : Option String :=
  (firstChildWithTag tr "target").bind (fun e => e.attrVal "ref")

def trGuard (tr : Element) : Option String := (labelOfKind tr "guard").bind Element.text

def trSync (tr : Element) : Option String :=
  (labelOfKind tr "synchronisation").bind Element.text

/-- The id attributes of a template's locations, in document order. -/
def idList (t : Element) : List String := (templateLocations t).filterMap locId

/-- How many of the template's transitions leave the location whose id
attribute is `ref`. -/
def outDeg (t : Element) (ref : String) : Nat :=
  (templateTransitions t).countP (fun tr => trSource tr == some ref)

/-! ### Concrete inputs cited by the claims -/

/-- The spec's concrete scenario:
`[("sigA?","gclk>=5","gclk<=10"), ("sigB?","gclk>=2","gclk<=8")]`. -/
def specSignals : List UFactory.Signal :=
  [(some "sigA?", some "gclk>=5", some "gclk<=10"),
   (some "sigB?", some "gclk>=2", some "gclk<=8")]

/-- One-signal chain whose signal matches both values of `apDupDict`. -/
def apDupSignals : List UFactory.Signal := [(some "s?", none, none)]

/-- Alphabet `{a: s!, b: s!}`: two distinct keys sharing the value `s!`. -/
def apDupDict : List (String × String) := [("a", "s!"), ("b", "s!")]

/-- Two-signal chain in which no signal matches any value of `apZeroDict`. -/
def apZeroSignals : List UFactory.Signal :=
  [(some "a?", none, none), (some "b?", none, none)]

/-- Alphabet `{e: x!}` matching neither signal of `apZeroSignals`. -/
def apZeroDict : List (String × String) := [("e", "x!")]

/-- One-signal chain carrying a guard and an invariant. -/
def apInvSignals : List UFactory.Signal := [(some "a?", some "g>=1", some "g<=2")]

/-- Alphabet `{e: a!}` whose only value matches the signal of `apInvSignals`. -/
def apInvDict : List (String × String) := [("e", "a!")]

/-- Strict-chain input whose first observation has no guard (and `n = 2`),
with all invariants present. -/
def badGuardSignals : List UFactory.Signal :=
  [(some "a?", none, some "x<=1"), (some "b?", none, some "y<=2")]

/-- Strict-chain input whose second observation has no invariant. -/
def badInvSignals : List UFactory.Signal :=
  [(some "a?", some "x>=1", some "x<=1"), (some "b?", some "y>=1", none)]

/-! ### The claims -/

/-- C9: every public synthesis operation's body refers to the global name
`UppaalFactory`; the module binds `UFactory` (and the imports) but no
`UppaalFactory`, so Python's global lookup raises `NameError` at the first
such reference an execution reaches. -/
theorem C9_stale_class_name_raises :
    ("UFactory" ∈ UFactory.moduleBindings) ∧
    ("UppaalFactory" ∉ UFactory.moduleBindings) ∧
    (∀ p ∈ UFactory.opGlobalRefs, "UppaalFactory" ∈ p.2) ∧
    UFactory.resolveGlobal UFactory.moduleBindings "UppaalFactory"
      = .error (.nameError "UppaalFactory") ∧
    (UFactory.opGlobalRefs.map Prod.fst)
      = ["queries", "monitor", "strict_monitor", "monitor_allpatterns", "input"] := by
  exact ⟨by decide, by decide, by decide, rfl, rfl⟩

/-- C7 (code bug): `template` called with a declaration writes the
`parameter` argument, not the declaration string, into the `declaration`
child's text (ufactory.py:203 assigns `declaration_elem.text = parameter`).
At the failing input `parameter=None, declaration="clock t;"` the child's
text is `None`; with `parameter="int x;"` it is `"int x;"` — never the
supplied `"clock t;"`. -/
theorem C7_template_declaration_text_bug :
    templateDeclTexts (UFactory.template "T" [] 0 [] (some "int x;") (some "clock t;"))
        = [some "int x;"] ∧
    templateDeclTexts (UFactory.template "T" [] 0 [] none (some "clock t;")) = [none] ∧
    ((some "clock t;" : Option String) ≠ some "int x;") := by
  exact ⟨rfl, rfl, by decide⟩

/-- C1 (code bug): the claim describes the plain chain the body of
`monitor` sets out to build — `n+1` locations `base..base+n`, `n`
transitions, init `base`, tail named `pass` — but every call dereferences
the unbound global `UppaalFactory` (ufactory.py:252 for `n ≥ 1`, 255 for
`n = 0`) and raises `NameError`, returning no template for any input. -/
theorem C1_plain_chain_raises_nameerror (nm : String) (S : List UFactory.Signal) (base : Int) :
    UFactory.monitor nm S base false = .error (.nameError "UppaalFactory") := rfl

/-- C2 (code bug): the plain chain never produces the claimed transitions
`base+i → base+i+1` (or any fragment at all): every call to `monitor`
with `strict=False` raises `NameError` on the stale `UppaalFactory`
reference before the first transition is built. -/
theorem C2_plain_chain_no_transitions (nm : String) (S : List UFactory.Signal) (base : Int) :
    ((UFactory.monitor nm S base false).toOption).map templateTransitions = none ∧
    UFactory.monitor nm S base false = .error (.nameError "UppaalFactory") :=
  ⟨rfl, rfl⟩

/-- C3 (code bug): the strict chain's trap locations and trap transitions
are never synthesized: `monitor` with `strict=True` raises `NameError` at
the stale `UppaalFactory` reference (ufactory.py:252) before any trap
location is built — also at the spec's concrete scenario where the claim
expects traps `id4`/`id5` with invariants `gclk<10`/`gclk<8`. -/
theorem C3_strict_chain_raises_nameerror (nm : String) (S : List UFactory.Signal) (base : Int) :
    UFactory.monitor nm S base true = .error (.nameError "UppaalFactory") ∧
    UFactory.monitor "Monitor" specSignals 1 true = .error (.nameError "UppaalFactory") :=
  ⟨rfl, rfl⟩

/-- C4 (code bug): the all-patterns synthesizer allocates no trap ids at
all: every call to `monitor_allpatterns` raises `NameError` at the stale
`UppaalFactory` reference (ufactory.py:349, or 352 for `n = 0`) — in
particular at the duplicated-value alphabet `{a: s!, b: s!}` with chain
`[s?]`. -/
theorem C4_allpatterns_raises_nameerror (nm : String) (S : List UFactory.Signal) (base : Int)
    (dict : List (String × String)) :
    UFactory.monitor_allpatterns nm S base dict = .error (.nameError "UppaalFactory") ∧
    UFactory.monitor_allpatterns "M" apDupSignals 0 apDupDict
      = .error (.nameError "UppaalFactory") :=
  ⟨rfl, rfl⟩

/-- C5 (code bug): none of the three synthesis calls ever allocates a
location id: `monitor` (either mode), `strict_monitor` and
`monitor_allpatterns` all raise `NameError` on every input — in
particular at the zero-match input `apZeroSignals`/`apZeroDict`. -/
theorem C5_no_ids_allocated :
    (∀ (nm : String) (S : List UFactory.Signal) (b : Int) (strict : Bool),
       UFactory.monitor nm S b strict = .error (.nameError "UppaalFactory")) ∧
    (∀ (nm : String) (S : List UFactory.Signal) (b : Int),
       UFactory.strict_monitor nm S b = .error (.nameError "UppaalFactory")) ∧
    (∀ (nm : String) (S : List UFactory.Signal) (b : Int) (dict : List (String × String)),
       UFactory.monitor_allpatterns nm S b dict = .error (.nameError "UppaalFactory")) ∧
    UFactory.monitor_allpatterns "M" apZeroSignals 0 apZeroDict
      = .error (.nameError "UppaalFactory") :=
  ⟨fun _ _ _ _ => rfl, fun _ _ _ => rfl, fun _ _ _ _ => rfl, rfl⟩

/-- C6 (code bug): the all-patterns main chain is never built, so no
main-chain location can carry `S[i].invariant` and no main-chain
transition `S[i].guard`: `monitor_allpatterns` raises `NameError`
(ufactory.py:349) on every input — in particular at the one-signal input
with guard `g>=1` and invariant `g<=2`. -/
theorem C6_allpatterns_no_main_chain (nm : String) (S : List UFactory.Signal) (base : Int)
    (dict : List (String × String)) :
    ((UFactory.monitor_allpatterns nm S base dict).toOption).map templateLocations = none ∧
    UFactory.monitor_allpatterns "M" apInvSignals 0 apInvDict
      = .error (.nameError "UppaalFactory") :=
  ⟨rfl, rfl⟩

/-- C8 (code bug): a successful strict synthesis is impossible, so no
location is ever the source of any transition: `monitor` with
`strict=True` never returns a template (no id list exists), and
`strict_monitor` raises `NameError` at the spec's strict scenario. -/
theorem C8_strict_chain_no_degrees (nm : String) (S : List UFactory.Signal) (base : Int) :
    ((UFactory.monitor nm S base true).toOption).map idList = none ∧
    UFactory.strict_monitor "M" specSignals 1 = .error (.nameError "UppaalFactory") :=
  ⟨rfl, rfl⟩

/-- C10 (code bug): the claimed `AttributeError` from calling `.replace`
on a `None` invariant or guard never occurs: the `NameError` at the stale
`UppaalFactory` reference (ufactory.py:252) is raised before any
`.replace` is reached, also at the claim's own failing inputs (a missing
non-final guard with `n = 2`, and a missing invariant). -/
theorem C10_nameerror_preempts_attributeerror :
    (∀ (nm : String) (S : List UFactory.Signal) (b : Int),
       UFactory.monitor nm S b true = .error (.nameError "UppaalFactory")) ∧
    UFactory.monitor "M" badGuardSignals 1 true = .error (.nameError "UppaalFactory") ∧
    UFactory.monitor "M" badInvSignals 1 true = .error (.nameError "UppaalFactory") :=
  ⟨fun _ _ _ => rfl, rfl, rfl⟩
